import Mathlib

/-!
Verification development for the thermal-printer server
(`server/printer-api.js`).

The server is a small Express application holding one global mutable
variable `activePrinterConnection` (a TCP socket or `null`).  Each HTTP
request handler runs to completion before the next one is processed, so
we embed every handler as a pure function on an explicit `ServerState`.
Interaction with the operating system (whether a TCP connect succeeds,
times out, or errors, and whether a write succeeds) is passed in as an
explicit outcome parameter / oracle, which is the standard shallow
embedding of the asynchronous callbacks in the source.

Byte buffers are lists of natural numbers (each < 256, produced from
UTF-8 encoding of strings or from the literal ESC/POS byte constants of
the source).
-/

namespace ThermalPrinter

/-- UTF-8 encoding of one Unicode code point, as natural numbers. -/
def utf8Bytes (n : Nat) : List Nat :=
  if n < 0x80 then [n]
  else if n < 0x800 then [0xC0 + n / 64, 0x80 + n % 64]
  else if n < 0x10000 then [0xE0 + n / 4096, 0x80 + (n / 64) % 64, 0x80 + n % 64]
  else [0xF0 + n / 262144, 0x80 + (n / 4096) % 64, 0x80 + (n / 64) % 64, 0x80 + n % 64]

/-- UTF-8 bytes of a string, as natural numbers (`Buffer.from(s)` in the source). -/
def strBytes (s : String) : List Nat := s.data.flatMap (fun c => utf8Bytes c.toNat)

namespace ESC_POS

/-- Command `INIT = Buffer.from([0x1B, 0x40])`. -/
def INIT : List Nat := [0x1B, 0x40]

/-- Command `BOLD_ON = Buffer.from([0x1B, 0x45, 0x01])`. -/
def BOLD_ON : List Nat := [0x1B, 0x45, 0x01]

/-- Command `BOLD_OFF = Buffer.from([0x1B, 0x45, 0x00])`. -/
def BOLD_OFF : List Nat := [0x1B, 0x45, 0x00]

/-- Command `CENTER = Buffer.from([0x1B, 0x61, 0x01])`. -/
def CENTER : List Nat := [0x1B, 0x61, 0x01]

/-- Command `LEFT = Buffer.from([0x1B, 0x61, 0x00])`. -/
def LEFT : List Nat := [0x1B, 0x61, 0x00]

/-- Command `FEED = Buffer.from([0x0A])`. -/
def FEED : List Nat := [0x0A]

/-- Command `CUT = Buffer.from([0x1D, 0x56, 0x42, 0x00])`. -/
def CUT : List Nat := [0x1D, 0x56, 0x42, 0x00]

/-- Command `LARGE_TEXT = Buffer.from([0x1B, 0x21, 0x30])`. -/
def LARGE_TEXT : List Nat := [0x1B, 0x21, 0x30]

/-- Command `NORMAL_TEXT = Buffer.from([0x1B, 0x21, 0x00])`. -/
def NORMAL_TEXT : List Nat := [0x1B, 0x21, 0x00]

end ESC_POS

/-- Code points treated as whitespace by JavaScript `trim()` (the ECMAScript
WhiteSpace and LineTerminator sets). -/
def jsWhitespace (c : Char) : Bool :=
  [0x09, 0x0A, 0x0B, 0x0C, 0x0D, 0x20, 0xA0, 0x1680,
   0x2000, 0x2001, 0x2002, 0x2003, 0x2004, 0x2005, 0x2006, 0x2007,
   0x2008, 0x2009, 0x200A, 0x2028, 0x2029, 0x202F, 0x205F, 0x3000,
   0xFEFF].contains c.toNat

/-- JavaScript `String.prototype.trim()`: drop whitespace from both ends. -/
def jsTrim (s : String) : String :=
  ⟨((s.data.dropWhile jsWhitespace).reverse.dropWhile jsWhitespace).reverse⟩

/-- JavaScript truthiness of a string value: every string except `""` is truthy. -/
def truthyStr (s : String) : Bool := s != ""

/-- JavaScript truthiness of a possibly-absent string field (`undefined` is falsy). -/
def truthyOptStr : Option String → Bool
  | none => false
  | some s => truthyStr s

/-- JavaScript truthiness of a possibly-absent numeric field (`undefined` and `0` are falsy). -/
def truthyOptNat : Option Nat → Bool
  | none => false
  | some n => n != 0

/-- JavaScript template-literal interpolation of a possibly-absent value:
an absent (`undefined`) value prints as the string `undefined`. -/
def jsInterp : Option String → String
  | none => "undefined"
  | some s => s

/-- A print job as read from the request body of `POST /api/printer/print`:
`const { text, customText, timestamp } = req.body`. -/
structure PrintJob where
  text : String
  customText : Option String
  timestamp : Option String
deriving DecidableEq, Repr

/-- The byte buffer built by the `/api/printer/print` handler
(`Buffer.concat(commands)` over the pushed command list), translated
command-push by command-push from the source. -/
def encode (job : PrintJob) : List Nat :=
  let headerCmds : List (List Nat) :=
    [ESC_POS.CENTER, ESC_POS.LARGE_TEXT, ESC_POS.BOLD_ON,
     strBytes "Hard Plot Center", ESC_POS.BOLD_OFF, ESC_POS.FEED, ESC_POS.FEED]
  let customCmds : List (List Nat) :=
    match job.customText with
    | some c =>
        if truthyStr c && truthyStr (jsTrim c) then
          [ESC_POS.CENTER, ESC_POS.NORMAL_TEXT, ESC_POS.BOLD_ON,
           strBytes c, ESC_POS.BOLD_OFF, ESC_POS.FEED, ESC_POS.FEED]
        else []
    | none => []
  let mainCmds : List (List Nat) :=
    [ESC_POS.CENTER, ESC_POS.LARGE_TEXT, ESC_POS.BOLD_ON,
     strBytes job.text, ESC_POS.FEED, ESC_POS.FEED]
  let timestampCmds : List (List Nat) :=
    [ESC_POS.NORMAL_TEXT, ESC_POS.BOLD_OFF,
     strBytes ("Printed: " ++ jsInterp job.timestamp),
     ESC_POS.FEED, ESC_POS.FEED, ESC_POS.FEED]
  (headerCmds ++ customCmds ++ mainCmds ++ timestampCmds ++ [ESC_POS.CUT]).flatten

/-- A discovery result record, as resolved by `checkPrinterAtAddress`. -/
structure DiscoveredPrinter where
  ipAddress : String
  port : Nat
  name : String
deriving DecidableEq, Repr

/-- Function `checkPrinterAtAddress(ip, port, timeout)`: resolves with a printer record
when the TCP connect callback fires before the timer, and with `null` when the
attempt errors or times out.  The environment oracle `reachable ip port`
abstracts whether the TCP handshake to `ip:port` completes within the
500 ms per-attempt timeout. -/
def checkPrinterAtAddress (reachable : String → Nat → Bool) (ip : String) (port : Nat) :
    Option DiscoveredPrinter :=
  if reachable ip port then
    some ⟨ip, port, "Network Printer (" ++ ip ++ ")"⟩
  else
    none

/-- The (host-suffix, port) combinations probed by `scanForPrinters`:
the outer loop runs `i` from 1 to 254, the inner loop runs over
`ports = [9100, 515]`. -/
def scanSuffixPorts : List (Nat × Nat) :=
  ((List.range 254).map (fun i => i + 1)) ×ˢ [9100, 515]

/-- The concrete probe targets (`ip = baseIP + "." + i`, port) in launch order. -/
def scanTargets (baseIP : String) : List (String × Nat) :=
  scanSuffixPorts.map (fun t => (baseIP ++ "." ++ toString t.1, t.2))

/-- Function `scanForPrinters(baseIP)`: launches one `checkPrinterAtAddress` attempt per
target, awaits `Promise.allSettled`, and keeps the fulfilled non-null values
in order. -/
def scanForPrinters (reachable : String → Nat → Bool) (baseIP : String) :
    List DiscoveredPrinter :=
  (scanTargets baseIP).filterMap (fun t => checkPrinterAtAddress reachable t.1 t.2)

/-- Lifecycle status of one `net.Socket` allocated by the connect handler. -/
inductive SockStatus where
  | connecting : SockStatus
  | openConn : SockStatus
  | destroyed : SockStatus
deriving DecidableEq, Repr

/-- The server's mutable state: `activePrinterConnection` (index of the active
socket, or `none` for `null`), the statuses of every socket allocated so far
(index = allocation order), and the trace of bytes written to sockets. -/
structure ServerState where
  active : Option Nat
  sockets : List SockStatus
  writes : List (Nat × List Nat)
deriving DecidableEq, Repr

/-- State at server start: `activePrinterConnection = null`, no sockets. -/
def initState : ServerState := ⟨none, [], []⟩

/-- Environment outcome of one TCP connect attempt: the connect callback fires
(`ok`), the 5000 ms timer fires first (`timeout`), or the error handler fires
with a message. -/
inductive ConnectOutcome where
  | ok : ConnectOutcome
  | timeout : ConnectOutcome
  | sockError : String → ConnectOutcome
deriving DecidableEq, Repr

/-- Teardown step `if (activePrinterConnection) activePrinterConnection.destroy()`:
socket statuses after destroying the active connection, if any. -/
def destroyActive (st : ServerState) : List SockStatus :=
  match st.active with
  | some i => st.sockets.set i .destroyed
  | none => st.sockets

/-- The JSON body sent back by a handler: `{success, error?, message?}`. -/
structure ConnResponse where
  success : Bool
  error : Option String
  message : Option String
deriving DecidableEq, Repr

/-- The `POST /api/printer/connect` handler.  Mirrors the source: reject when
`!ipAddress || !port`; otherwise destroy any existing connection, allocate a
new socket and await its connect.  On the connect callback the INIT sequence
is written and the socket becomes the active connection; on timeout or error
the catch block sets `activePrinterConnection = null` (without destroying the
new socket) and reports the error message. -/
def connect (st : ServerState) (ipAddress : Option String) (port : Option Nat)
    (outcome : ConnectOutcome) : ServerState × ConnResponse :=
  if !(truthyOptStr ipAddress && truthyOptNat port) then
    (st, ⟨false, some "IP address and port are required", none⟩)
  else
    let base : List SockStatus := destroyActive st
    let newId := base.length
    match outcome with
    | .ok =>
        (⟨some newId, base ++ [.openConn], st.writes ++ [(newId, ESC_POS.INIT)]⟩,
         ⟨true, none,
          some ("Connected to " ++ jsInterp ipAddress ++ ":" ++
                toString (port.getD 0))⟩)
    | .timeout =>
        (⟨none, base ++ [.connecting], st.writes⟩,
         ⟨false, some "Connection timeout", none⟩)
    | .sockError msg =>
        (⟨none, base ++ [.connecting], st.writes⟩,
         ⟨false, some msg, none⟩)

/-- The `POST /api/printer/disconnect` handler: destroy the active socket and
null the reference when one exists; always report success. -/
def disconnect (st : ServerState) : ServerState × ConnResponse :=
  match st.active with
  | some i =>
      (⟨none, st.sockets.set i .destroyed, st.writes⟩,
       ⟨true, none, some "Disconnected"⟩)
  | none => (st, ⟨true, none, some "Disconnected"⟩)

/-- Environment outcome of the write callback in the print handler. -/
inductive WriteOutcome where
  | ok : WriteOutcome
  | fail : String → WriteOutcome
deriving DecidableEq, Repr

/-- The `POST /api/printer/print` handler: with no active connection it
returns the `Printer not connected` failure before building any command;
otherwise it writes the encoded buffer through the active socket and reports
the write outcome. -/
def printOp (st : ServerState) (job : PrintJob) (w : WriteOutcome) :
    ServerState × ConnResponse :=
  match st.active with
  | none => (st, ⟨false, some "Printer not connected", none⟩)
  | some i =>
      match w with
      | .ok =>
          (⟨st.active, st.sockets, st.writes ++ [(i, encode job)]⟩,
           ⟨true, none, some "Print job sent successfully"⟩)
      | .fail msg => (st, ⟨false, some msg, none⟩)

/-- The `connected` field of `GET /api/health`:
`activePrinterConnection !== null`. -/
def healthConnected (st : ServerState) : Bool := st.active.isSome

/-- One registry operation of a sequential run (connect with its environment
outcome, or disconnect). -/
inductive Op where
  | connectOp : Option String → Option Nat → ConnectOutcome → Op
  | disconnectOp : Op
deriving DecidableEq, Repr

/-- State transition of one operation (response discarded). -/
def applyOp (st : ServerState) : Op → ServerState
  | .connectOp ip port outcome => (connect st ip port outcome).1
  | .disconnectOp => (disconnect st).1

/-- Run a sequence of operations from a state. -/
def runOps (st : ServerState) : List Op → ServerState
  | [] => st
  | op :: ops => runOps (applyOp st op) ops

/-- Number of sockets currently open (connected transports). -/
def openCount (st : ServerState) : Nat :=
  st.sockets.countP (fun s => s == .openConn)

/-- Number of sockets that have never been destroyed (live handles). -/
def undestroyedCount (st : ServerState) : Nat :=
  st.sockets.countP (fun s => s != .destroyed)

/-- An operation whose connect attempt (if any) succeeds. -/
def opSucceeds : Op → Prop
  | .connectOp _ _ outcome => outcome = .ok
  | .disconnectOp => True

/-- State invariant: a socket is open exactly when it is the active connection. -/
def OpenUnique (st : ServerState) : Prop :=
  ∀ j, st.sockets[j]? = some .openConn ↔ st.active = some j

/-- State invariant: every socket other than the active connection has been
destroyed (no leaked handles). -/
def LiveUnique (st : ServerState) : Prop :=
  ∀ j s, st.sockets[j]? = some s → s ≠ .destroyed → st.active = some j


/-! ### Helper lemmas -/

theorem jsTrim_empty : jsTrim "" = "" := by decide

theorem getElem?_set_concat_length {α : Type} (l : List α) (i : Nat) (a b : α) :
    ((l.set i a) ++ [b])[l.length]? = some b := by
  have h : (l.set i a).length = l.length := List.length_set l i a
  rw [← h]
  exact List.getElem?_concat_length _ _

theorem mem_scanSuffixPorts (i p : Nat) :
    (i, p) ∈ scanSuffixPorts ↔ (1 ≤ i ∧ i ≤ 254 ∧ (p = 9100 ∨ p = 515)) := by
  unfold scanSuffixPorts
  rw [List.mem_product]
  simp only [List.mem_map, List.mem_range, List.mem_cons, List.mem_singleton,
    List.not_mem_nil, or_false]
  constructor
  · rintro ⟨⟨a, ha, rfl⟩, hp⟩
    exact ⟨by omega, by omega, hp⟩
  · rintro ⟨h1, h2, hp⟩
    exact ⟨⟨i - 1, by omega, by omega⟩, hp⟩

theorem scanSuffixPorts_nodup : scanSuffixPorts.Nodup := by
  unfold scanSuffixPorts
  apply List.Nodup.product
  · exact (List.nodup_range 254).map (fun a b h => by omega)
  · decide

theorem scanSuffixPorts_length : scanSuffixPorts.length = 508 := by
  unfold scanSuffixPorts
  rw [List.length_product]
  simp

theorem destroyActive_no_open (st : ServerState) (h : OpenUnique st) (j : Nat) :
    (destroyActive st)[j]? ≠ some .openConn := by
  unfold destroyActive
  cases ha : st.active with
  | none =>
      intro hj
      have := (h j).mp hj
      rw [ha] at this
      cases this
  | some i =>
      intro hj
      by_cases hij : i = j
      · subst hij
        rw [List.getElem?_set_self'] at hj
        cases hx : st.sockets[i]? with
        | none => rw [hx] at hj; cases hj
        | some s => rw [hx] at hj; simp at hj
      · rw [List.getElem?_set_ne hij] at hj
        have := (h j).mp hj
        rw [ha] at this
        injection this with this
        exact hij this

theorem destroyActive_all_destroyed (st : ServerState) (h : LiveUnique st)
    (j : Nat) (s : SockStatus) :
    (destroyActive st)[j]? = some s → s = .destroyed := by
  unfold destroyActive
  cases ha : st.active with
  | none =>
      intro hj
      by_contra hs
      have := h j s hj hs
      rw [ha] at this
      cases this
  | some i =>
      intro hj
      by_cases hij : i = j
      · subst hij
        rw [List.getElem?_set_self'] at hj
        cases hx : st.sockets[i]? with
        | none => rw [hx] at hj; cases hj
        | some x => rw [hx] at hj; simp at hj; exact hj.symm
      · rw [List.getElem?_set_ne hij] at hj
        by_contra hs
        have := h j s hj hs
        rw [ha] at this
        injection this with this
        exact hij this

theorem openUnique_init : OpenUnique initState := by
  intro j
  simp [initState]

theorem liveUnique_init : LiveUnique initState := by
  intro j s hj
  simp [initState] at hj

theorem openUnique_connect (st : ServerState) (ip : Option String)
    (port : Option Nat) (outcome : ConnectOutcome) (h : OpenUnique st) :
    OpenUnique (connect st ip port outcome).1 := by
  unfold connect
  cases hg : (truthyOptStr ip && truthyOptNat port) with
  | false => simp [hg]; exact h
  | true =>
      simp only [hg, Bool.not_true, Bool.false_eq_true, if_false]
      cases outcome with
      | ok =>
          intro j
          simp only
          rcases Nat.lt_trichotomy j (destroyActive st).length with hj | hj | hj
          · rw [List.getElem?_append_left hj]
            constructor
            · intro hc
              exact absurd hc (destroyActive_no_open st h j)
            · intro hc
              injection hc with hc
              omega
          · subst hj
            rw [List.getElem?_concat_length]
            simp
          · have hlen : (destroyActive st ++ [SockStatus.openConn]).length ≤ j := by
              simp only [List.length_append, List.length_singleton]
              omega
            rw [List.getElem?_eq_none hlen]
            constructor
            · intro hc; cases hc
            · intro hc; injection hc with hc; omega
      | timeout =>
          intro j
          simp only
          constructor
          · intro hc
            rcases Nat.lt_trichotomy j (destroyActive st).length with hj | hj | hj
            · rw [List.getElem?_append_left hj] at hc
              exact absurd hc (destroyActive_no_open st h j)
            · subst hj
              rw [List.getElem?_concat_length] at hc
              cases hc
            · have hlen : (destroyActive st ++ [SockStatus.connecting]).length ≤ j := by
                simp only [List.length_append, List.length_singleton]
                omega
              rw [List.getElem?_eq_none hlen] at hc
              cases hc
          · intro hc
            cases hc
      | sockError msg =>
          intro j
          simp only
          constructor
          · intro hc
            rcases Nat.lt_trichotomy j (destroyActive st).length with hj | hj | hj
            · rw [List.getElem?_append_left hj] at hc
              exact absurd hc (destroyActive_no_open st h j)
            · subst hj
              rw [List.getElem?_concat_length] at hc
              cases hc
            · have hlen : (destroyActive st ++ [SockStatus.connecting]).length ≤ j := by
                simp only [List.length_append, List.length_singleton]
                omega
              rw [List.getElem?_eq_none hlen] at hc
              cases hc
          · intro hc
            cases hc

theorem openUnique_disconnect (st : ServerState) (h : OpenUnique st) :
    OpenUnique (disconnect st).1 := by
  unfold disconnect
  cases ha : st.active with
  | none => simp only; exact h
  | some i =>
      intro j
      simp only
      constructor
      · intro hc
        have hd := destroyActive_no_open st h j
        unfold destroyActive at hd
        rw [ha] at hd
        exact absurd hc hd
      · intro hc
        cases hc

theorem liveUnique_connect_ok (st : ServerState) (ip : Option String)
    (port : Option Nat) (h : LiveUnique st) :
    LiveUnique (connect st ip port .ok).1 := by
  unfold connect
  cases hg : (truthyOptStr ip && truthyOptNat port) with
  | false => simp [hg]; exact h
  | true =>
      simp only [hg, Bool.not_true, Bool.false_eq_true, if_false]
      intro j s hj hs
      simp only at hj ⊢
      rcases Nat.lt_trichotomy j (destroyActive st).length with hlt | heq | hgt
      · rw [List.getElem?_append_left hlt] at hj
        exact absurd (destroyActive_all_destroyed st h j s hj) hs
      · subst heq
        rfl
      · have hlen : (destroyActive st ++ [SockStatus.openConn]).length ≤ j := by
          simp only [List.length_append, List.length_singleton]
          omega
        rw [List.getElem?_eq_none hlen] at hj
        cases hj

theorem liveUnique_disconnect (st : ServerState) (h : LiveUnique st) :
    LiveUnique (disconnect st).1 := by
  unfold disconnect
  cases ha : st.active with
  | none => simp only; exact h
  | some i =>
      intro j s hj hs
      simp only at hj ⊢
      have hd := destroyActive_all_destroyed st h j s
      unfold destroyActive at hd
      rw [ha] at hd
      exact absurd (hd hj) hs

theorem openUnique_applyOp (st : ServerState) (op : Op) (h : OpenUnique st) :
    OpenUnique (applyOp st op) := by
  cases op with
  | connectOp ip port outcome => exact openUnique_connect st ip port outcome h
  | disconnectOp => exact openUnique_disconnect st h

theorem openUnique_runOps (ops : List Op) (st : ServerState) (h : OpenUnique st) :
    OpenUnique (runOps st ops) := by
  induction ops generalizing st with
  | nil => exact h
  | cons op ops ih => exact ih _ (openUnique_applyOp st op h)

theorem liveUnique_applyOp (st : ServerState) (op : Op) (hop : opSucceeds op)
    (h : LiveUnique st) : LiveUnique (applyOp st op) := by
  cases op with
  | connectOp ip port outcome =>
      have ho : outcome = .ok := hop
      subst ho
      exact liveUnique_connect_ok st ip port h
  | disconnectOp => exact liveUnique_disconnect st h

theorem liveUnique_runOps (ops : List Op) (st : ServerState)
    (hops : ∀ op ∈ ops, opSucceeds op) (h : LiveUnique st) :
    LiveUnique (runOps st ops) := by
  induction ops generalizing st with
  | nil => exact h
  | cons op ops ih =>
      exact ih _ (fun o ho => hops o (List.mem_cons_of_mem _ ho))
        (liveUnique_applyOp st op (hops op (List.mem_cons_self _ _)) h)

theorem countP_le_one_of_unique {α : Type} (p : α → Bool) (l : List α)
    (h : ∀ (i j : Nat) (si sj : α), l[i]? = some si → p si = true →
      l[j]? = some sj → p sj = true → i = j) :
    l.countP p ≤ 1 := by
  induction l with
  | nil => simp
  | cons a t ih =>
      by_cases hpa : p a = true
      · have ht : t.countP p = 0 := by
          rw [List.countP_eq_zero]
          intro x hx hpx
          obtain ⟨k, hk⟩ := List.mem_iff_getElem?.mp hx
          have := h 0 (k + 1) a x (by simp) hpa (by simpa using hk) hpx
          omega
        rw [List.countP_cons, ht, if_pos hpa]
      · rw [List.countP_cons, if_neg hpa]
        simp only [Nat.add_zero]
        exact ih (fun i j si sj hi hpi hj hpj => by
          have := h (i + 1) (j + 1) si sj (by simpa using hi) hpi
            (by simpa using hj) hpj
          omega)

theorem openCount_le_one (st : ServerState) (h : OpenUnique st) :
    openCount st ≤ 1 := by
  unfold openCount
  apply countP_le_one_of_unique
  intro i j si sj hi hpi hj hpj
  have hsi : si = .openConn := by
    cases si <;> simp_all
  have hsj : sj = .openConn := by
    cases sj <;> simp_all
  subst hsi
  subst hsj
  have h1 := (h i).mp hi
  have h2 := (h j).mp hj
  rw [h1] at h2
  injection h2

theorem undestroyedCount_le_one (st : ServerState) (h : LiveUnique st) :
    undestroyedCount st ≤ 1 := by
  unfold undestroyedCount
  apply countP_le_one_of_unique
  intro i j si sj hi hpi hj hpj
  have hsi : si ≠ .destroyed := by
    cases si <;> simp_all
  have hsj : sj ≠ .destroyed := by
    cases sj <;> simp_all
  have h1 := h i si hi hsi
  have h2 := h j sj hj hsj
  rw [h1] at h2
  injection h2

/-! ### Claim theorems -/

/-- Claim C1: a discovery scan launches exactly one attempt for each host
suffix 1..254 combined with each candidate port (9100 and 515) — 508
pairwise-distinct attempts — consults every attempt, and returns exactly the
successful attempts' records: an entry is returned iff its address is
`baseIP.i` for some suffix `i` in 1..254, its port is a candidate port, the
probe to it succeeds, and its name is synthesized from its `ipAddress`; a
failed or timed-out attempt contributes nothing and cannot fail the scan. -/
theorem scan_discovery_contract (reachable : String → Nat → Bool) (baseIP : String) :
    scanSuffixPorts.Nodup
    ∧ scanSuffixPorts.length = 508
    ∧ (∀ i p, (i, p) ∈ scanSuffixPorts ↔ (1 ≤ i ∧ i ≤ 254 ∧ (p = 9100 ∨ p = 515)))
    ∧ (∀ dp, dp ∈ scanForPrinters reachable baseIP ↔
        ∃ i, 1 ≤ i ∧ i ≤ 254
          ∧ dp.ipAddress = baseIP ++ "." ++ toString i
          ∧ (dp.port = 9100 ∨ dp.port = 515)
          ∧ reachable dp.ipAddress dp.port = true
          ∧ dp.name = "Network Printer (" ++ dp.ipAddress ++ ")") := by
  refine ⟨scanSuffixPorts_nodup, scanSuffixPorts_length, mem_scanSuffixPorts, ?_⟩
  rintro ⟨dpip, dpport, dpname⟩
  unfold scanForPrinters scanTargets checkPrinterAtAddress
  rw [List.mem_filterMap]
  constructor
  · rintro ⟨t, ht, hcheck⟩
    rw [List.mem_map] at ht
    obtain ⟨s, hs, rfl⟩ := ht
    by_cases hr : reachable (baseIP ++ "." ++ toString s.1) s.2
    · rw [if_pos hr] at hcheck
      injection hcheck with hcheck
      obtain ⟨h1, h2, _⟩ := (mem_scanSuffixPorts s.1 s.2).mp hs
      cases hcheck
      exact ⟨s.1, h1, h2, rfl,
        ((mem_scanSuffixPorts s.1 s.2).mp hs).2.2, hr, rfl⟩
    · rw [if_neg hr] at hcheck
      exact absurd hcheck (by simp)
  · rintro ⟨i, h1, h2, hip, hp, hr, hname⟩
    dsimp only at hip hp hr hname
    subst hip
    subst hname
    refine ⟨(baseIP ++ "." ++ toString i, dpport), ?_, ?_⟩
    · rw [List.mem_map]
      exact ⟨(i, dpport), (mem_scanSuffixPorts i dpport).mpr ⟨h1, h2, hp⟩, rfl⟩
    · dsimp only
      rw [if_pos hr]

/-- Witness for C1: with only `192.168.1.7:9100` listening, the scan
returns exactly that record. -/
theorem scan_discovery_contract_witness :
    (⟨"192.168.1.7", 9100, "Network Printer (192.168.1.7)"⟩ : DiscoveredPrinter) ∈
      scanForPrinters (fun ip p => ip == "192.168.1.7" && p == 9100) "192.168.1" :=
  ((scan_discovery_contract (fun ip p => ip == "192.168.1.7" && p == 9100)
      "192.168.1").2.2.2 _).mpr
    ⟨7, by decide, by decide, by decide, by decide, by decide, by decide⟩

/-- Claim C2: for every `connect(target)` call with valid fields, any
existing connection is destroyed first (in every outcome); on success the
response reports success, the new socket becomes the active connection, an
open socket, and receives the INIT sequence; on any failure the active
connection is reset to `none`, the health query reports not connected, and
the error is surfaced in a `{success:false, error}` response — the registry
is never left holding a broken handle. -/
theorem connect_no_half_open (st : ServerState) (ip : String) (port : Nat)
    (outcome : ConnectOutcome) (hip : ip ≠ "") (hport : port ≠ 0)
    (hwf : ∀ i, st.active = some i → i < st.sockets.length) :
    (∀ i, st.active = some i →
      ((connect st (some ip) (some port) outcome).1.sockets)[i]? = some .destroyed)
    ∧ (outcome = .ok →
        (connect st (some ip) (some port) outcome).2.success = true
        ∧ (connect st (some ip) (some port) outcome).1.active =
            some st.sockets.length
        ∧ ((connect st (some ip) (some port) outcome).1.sockets)[st.sockets.length]? =
            some .openConn
        ∧ (connect st (some ip) (some port) outcome).1.writes =
            st.writes ++ [(st.sockets.length, ESC_POS.INIT)])
    ∧ (outcome ≠ .ok →
        (connect st (some ip) (some port) outcome).2.success = false
        ∧ (connect st (some ip) (some port) outcome).1.active = none
        ∧ healthConnected (connect st (some ip) (some port) outcome).1 = false
        ∧ (connect st (some ip) (some port) outcome).2.error ≠ none) := by
  have hguard : (truthyOptStr (some ip) && truthyOptNat (some port)) = true := by
    simp [truthyOptStr, truthyOptNat, truthyStr, bne_iff_ne, hip, hport]
  refine ⟨?_, ?_, ?_⟩
  · intro i hi
    have hlen : i < st.sockets.length := hwf i hi
    cases outcome <;>
      simp [connect, destroyActive, hguard, hi, List.getElem?_append_left,
        List.length_set, hlen, List.getElem?_set_self]
  · intro ho
    subst ho
    cases ha : st.active with
    | none =>
        simp [connect, destroyActive, hguard, ha, healthConnected,
          List.getElem?_concat_length]
    | some i =>
        simp [connect, destroyActive, hguard, ha, healthConnected,
          List.length_set, getElem?_set_concat_length]
  · intro ho
    cases outcome with
    | ok => exact absurd rfl ho
    | timeout =>
        cases ha : st.active <;>
          simp [connect, destroyActive, hguard, ha, healthConnected]
    | sockError msg =>
        cases ha : st.active <;>
          simp [connect, destroyActive, hguard, ha, healthConnected]

/-- Witness for C2: a successful connect from a state with one open socket
reports success. -/
theorem connect_no_half_open_witness :
    (connect ⟨some 0, [SockStatus.openConn], []⟩ (some "192.168.1.50")
      (some 9100) .ok).2.success = true :=
  ((connect_no_half_open ⟨some 0, [SockStatus.openConn], []⟩ "192.168.1.50"
      9100 .ok (by decide) (by decide)
      (fun i hi => by cases hi; decide)).2.1 rfl).1

/-- Claim C3: for every print job with non-blank text, non-blank customText
and a timestamp, the encoded buffer is exactly the centered bold large-font
brand header block, then the centered bold normal-font customText block,
then the centered bold large-font main text block, then the normal-font
non-bold timestamp block — each textual block followed by the line-feed
byte 0x0A — and it ends with the 4-byte cut sequence 0x1D 0x56 0x42 0x00. -/
theorem print_buffer_layout (text c ts : String)
    (_htext : jsTrim text ≠ "") (hc : jsTrim c ≠ "") :
    encode ⟨text, some c, some ts⟩ =
      ([0x1B, 0x61, 0x01] ++ [0x1B, 0x21, 0x30] ++ [0x1B, 0x45, 0x01] ++
         strBytes "Hard Plot Center" ++ [0x1B, 0x45, 0x00] ++ [0x0A] ++ [0x0A]) ++
      ([0x1B, 0x61, 0x01] ++ [0x1B, 0x21, 0x00] ++ [0x1B, 0x45, 0x01] ++
         strBytes c ++ [0x1B, 0x45, 0x00] ++ [0x0A] ++ [0x0A]) ++
      ([0x1B, 0x61, 0x01] ++ [0x1B, 0x21, 0x30] ++ [0x1B, 0x45, 0x01] ++
         strBytes text ++ [0x0A] ++ [0x0A]) ++
      ([0x1B, 0x21, 0x00] ++ [0x1B, 0x45, 0x00] ++
         strBytes ("Printed: " ++ ts) ++ [0x0A] ++ [0x0A] ++ [0x0A]) ++
      [0x1D, 0x56, 0x42, 0x00] := by
  have hc0 : c ≠ "" := by
    intro h
    exact hc (by rw [h]; exact jsTrim_empty)
  simp [encode, truthyStr, bne_iff_ne, hc0, hc, jsInterp,
    ESC_POS.CENTER, ESC_POS.LARGE_TEXT, ESC_POS.NORMAL_TEXT, ESC_POS.BOLD_ON,
    ESC_POS.BOLD_OFF, ESC_POS.FEED, ESC_POS.CUT, List.flatten, List.append_assoc]

/-- Witness for C3: the layout at the spec's example job. -/
theorem print_buffer_layout_witness :
    encode ⟨"Dona", some "Welcome!", some "2024-01-01 10:00"⟩ =
      ([0x1B, 0x61, 0x01] ++ [0x1B, 0x21, 0x30] ++ [0x1B, 0x45, 0x01] ++
         strBytes "Hard Plot Center" ++ [0x1B, 0x45, 0x00] ++ [0x0A] ++ [0x0A]) ++
      ([0x1B, 0x61, 0x01] ++ [0x1B, 0x21, 0x00] ++ [0x1B, 0x45, 0x01] ++
         strBytes "Welcome!" ++ [0x1B, 0x45, 0x00] ++ [0x0A] ++ [0x0A]) ++
      ([0x1B, 0x61, 0x01] ++ [0x1B, 0x21, 0x30] ++ [0x1B, 0x45, 0x01] ++
         strBytes "Dona" ++ [0x0A] ++ [0x0A]) ++
      ([0x1B, 0x21, 0x00] ++ [0x1B, 0x45, 0x00] ++
         strBytes ("Printed: " ++ "2024-01-01 10:00") ++ [0x0A] ++ [0x0A] ++ [0x0A]) ++
      [0x1D, 0x56, 0x42, 0x00] :=
  print_buffer_layout "Dona" "Welcome!" "2024-01-01 10:00" (by decide) (by decide)

/-- Claim C4: every print request made while no connection is active returns
the `Printer not connected` failure and leaves the state (including the
write trace) untouched — the encoder and transport are never invoked and
nothing can throw. -/
theorem print_not_connected (st : ServerState) (job : PrintJob) (w : WriteOutcome)
    (h : st.active = none) :
    printOp st job w = (st, ⟨false, some "Printer not connected", none⟩) := by
  unfold printOp
  rw [h]

/-- Witness for C4: printing from the initial state fails as not connected. -/
theorem print_not_connected_witness :
    printOp initState ⟨"Dona", none, none⟩ .ok =
      (initState, ⟨false, some "Printer not connected", none⟩) :=
  print_not_connected initState ⟨"Dona", none, none⟩ .ok rfl

/-- Claim C5: `disconnect()` always reports success; with an active
connection it destroys the socket and resets the active reference to
`none`; with no active connection it leaves the state unchanged; and a
second consecutive call is a no-op that still reports success. -/
theorem disconnect_idempotent (st : ServerState) :
    (disconnect st).2 = ⟨true, none, some "Disconnected"⟩
    ∧ (disconnect st).1.active = none
    ∧ (∀ i, st.active = some i →
        (disconnect st).1.sockets = st.sockets.set i .destroyed)
    ∧ (st.active = none → (disconnect st).1 = st)
    ∧ disconnect (disconnect st).1 =
        ((disconnect st).1, ⟨true, none, some "Disconnected"⟩) := by
  cases h : st.active with
  | none => simp [disconnect, h]
  | some i => simp [disconnect, h]

/-- Witness for C5: double disconnect from a connected state. -/
theorem disconnect_idempotent_witness :
    disconnect (disconnect ⟨some 0, [SockStatus.openConn], []⟩).1 =
      ((disconnect ⟨some 0, [SockStatus.openConn], []⟩).1,
       ⟨true, none, some "Disconnected"⟩) :=
  (disconnect_idempotent ⟨some 0, [SockStatus.openConn], []⟩).2.2.2.2

/-- Counterexample for C6: a timed-out connect from the initial state rejects
with `Connection timeout` and nulls the active reference, but the allocated
socket is left in the `connecting` state — it is not destroyed, contrary to
the claim. -/
theorem connect_timeout_socket_not_destroyed :
    connect initState (some "10.0.0.99") (some 9100) .timeout =
      (⟨none, [.connecting], []⟩, ⟨false, some "Connection timeout", none⟩)
    ∧ SockStatus.connecting ≠ SockStatus.destroyed := by
  refine ⟨?_, by decide⟩
  rfl

/-- Claim C6 (amended): for every network connect attempt that times out,
the operation fails with the error `Connection timeout`, the active
connection is reset so the health query reports `connected:false` — but the
timed-out socket is not destroyed: it is abandoned in the `connecting`
state. -/
theorem connect_timeout_behavior (st : ServerState) (ip : String) (port : Nat)
    (hip : ip ≠ "") (hport : port ≠ 0) :
    (connect st (some ip) (some port) .timeout).2 =
      ⟨false, some "Connection timeout", none⟩
    ∧ (connect st (some ip) (some port) .timeout).1.active = none
    ∧ healthConnected (connect st (some ip) (some port) .timeout).1 = false
    ∧ ((connect st (some ip) (some port) .timeout).1.sockets)[st.sockets.length]? =
        some .connecting := by
  have hguard : (truthyOptStr (some ip) && truthyOptNat (some port)) = true := by
    simp [truthyOptStr, truthyOptNat, truthyStr, bne_iff_ne, hip, hport]
  cases ha : st.active with
  | none =>
      simp [connect, destroyActive, hguard, ha, healthConnected,
        List.getElem?_concat_length]
  | some i =>
      simp [connect, destroyActive, hguard, ha, healthConnected,
        getElem?_set_concat_length]

/-- Witness for C6 (amended): the response of a timed-out connect. -/
theorem connect_timeout_behavior_witness :
    (connect initState (some "10.0.0.99") (some 9100) .timeout).2 =
      ⟨false, some "Connection timeout", none⟩ :=
  (connect_timeout_behavior initState "10.0.0.99" 9100 (by decide) (by decide)).1

/-- Counterexample for C7: after a timed-out connect, a successful connect
and a disconnect — full cycles ending with no active connection — one socket
(the timed-out one) is still not destroyed: a handle has leaked across the
cycles, contrary to the claim. -/
theorem leaked_socket_after_failed_connect :
    (runOps initState
      [Op.connectOp (some "10.0.0.1") (some 9100) .timeout,
       Op.connectOp (some "10.0.0.2") (some 9100) .ok,
       Op.disconnectOp]).active = none
    ∧ undestroyedCount (runOps initState
        [Op.connectOp (some "10.0.0.1") (some 9100) .timeout,
         Op.connectOp (some "10.0.0.2") (some 9100) .ok,
         Op.disconnectOp]) = 1 := by decide

/-- Claim C7 (amended): in every sequential run of connect and disconnect
operations from the initial state, at most one transport handle is open at
any time (the previous transport is destroyed before a new one becomes
active), and when every connect attempt succeeds no handle is leaked (at
most one undestroyed socket exists); a timed-out or errored connect
attempt, however, leaves its socket undestroyed. -/
theorem sequential_cycles_at_most_one_open (ops : List Op) :
    openCount (runOps initState ops) ≤ 1
    ∧ ((∀ op ∈ ops, opSucceeds op) →
        undestroyedCount (runOps initState ops) ≤ 1) := by
  constructor
  · exact openCount_le_one _ (openUnique_runOps ops initState openUnique_init)
  · intro hops
    exact undestroyedCount_le_one _
      (liveUnique_runOps ops initState hops liveUnique_init)

/-- Witness for C7 (amended): one successful connect→disconnect cycle leaks
nothing. -/
theorem sequential_cycles_at_most_one_open_witness :
    undestroyedCount (runOps initState
      [Op.connectOp (some "10.0.0.2") (some 9100) .ok, Op.disconnectOp]) ≤ 1 :=
  (sequential_cycles_at_most_one_open
    [Op.connectOp (some "10.0.0.2") (some 9100) .ok, Op.disconnectOp]).2
    (fun op hop => by
      rcases List.mem_cons.mp hop with rfl | hop2
      · exact rfl
      · rcases List.mem_cons.mp hop2 with rfl | h
        · trivial
        · cases h)

/-- Claim C8: a print job whose customText is blank (only whitespace)
produces exactly the same byte buffer as the same job with no customText at
all — no custom-text block, and the remaining blocks unchanged. -/
theorem blank_custom_text_skipped (text : String) (c : String) (ts : Option String)
    (hc : jsTrim c = "") :
    encode ⟨text, some c, ts⟩ = encode ⟨text, none, ts⟩ := by
  simp [encode, truthyStr, hc]

/-- Witness for C8: the spec's blank example. -/
theorem blank_custom_text_skipped_witness :
    encode ⟨"Dona", some "   ", none⟩ = encode ⟨"Dona", none, none⟩ :=
  blank_custom_text_skipped "Dona" "   " none (by decide)

/-- Counterexample for C9: a job with no timestamp still gets a timestamp
line — the buffer for `{text:"Dona"}` contains the bytes of
`Printed: undefined` between the main text block and the cut sequence,
contrary to the claim that no timestamp line is emitted. -/
theorem missing_timestamp_still_printed :
    encode ⟨"Dona", none, none⟩ =
      ([0x1B, 0x61, 0x01] ++ [0x1B, 0x21, 0x30] ++ [0x1B, 0x45, 0x01] ++
        strBytes "Hard Plot Center" ++ [0x1B, 0x45, 0x00] ++ [0x0A] ++ [0x0A]) ++
      ([0x1B, 0x61, 0x01] ++ [0x1B, 0x21, 0x30] ++ [0x1B, 0x45, 0x01] ++
        strBytes "Dona" ++ [0x0A] ++ [0x0A]) ++
      ([0x1B, 0x21, 0x00] ++ [0x1B, 0x45, 0x00] ++
        strBytes "Printed: undefined" ++ [0x0A] ++ [0x0A] ++ [0x0A]) ++
      [0x1D, 0x56, 0x42, 0x00] := by decide

/-- Claim C9 (amended): the timestamp line's content derives solely from the
caller-supplied timestamp field (never from a server clock), but the line is
emitted unconditionally: every encoded buffer ends with a normal-font
non-bold line reading `Printed: ` followed by the timestamp — or by the
interpolated string `undefined` when the field is absent — and then the cut
sequence. -/
theorem timestamp_line_always_emitted (text : String) (c : Option String)
    (ts : Option String) :
    ∃ pre, encode ⟨text, c, ts⟩ =
      pre ++ ([0x1B, 0x21, 0x00] ++ [0x1B, 0x45, 0x00] ++
        strBytes ("Printed: " ++ jsInterp ts) ++ [0x0A] ++ [0x0A] ++ [0x0A]) ++
      [0x1D, 0x56, 0x42, 0x00] := by
  cases c with
  | none =>
      refine ⟨([0x1B, 0x61, 0x01] ++ [0x1B, 0x21, 0x30] ++ [0x1B, 0x45, 0x01] ++
        strBytes "Hard Plot Center" ++ [0x1B, 0x45, 0x00] ++ [0x0A] ++ [0x0A]) ++
        ([0x1B, 0x61, 0x01] ++ [0x1B, 0x21, 0x30] ++ [0x1B, 0x45, 0x01] ++
         strBytes text ++ [0x0A] ++ [0x0A]), ?_⟩
      simp [encode, ESC_POS.CENTER, ESC_POS.LARGE_TEXT, ESC_POS.NORMAL_TEXT,
        ESC_POS.BOLD_ON, ESC_POS.BOLD_OFF, ESC_POS.FEED, ESC_POS.CUT,
        List.append_assoc]
  | some s =>
      by_cases h : (truthyStr s && truthyStr (jsTrim s)) = true
      · refine ⟨([0x1B, 0x61, 0x01] ++ [0x1B, 0x21, 0x30] ++ [0x1B, 0x45, 0x01] ++
          strBytes "Hard Plot Center" ++ [0x1B, 0x45, 0x00] ++ [0x0A] ++ [0x0A]) ++
          ([0x1B, 0x61, 0x01] ++ [0x1B, 0x21, 0x00] ++ [0x1B, 0x45, 0x01] ++
           strBytes s ++ [0x1B, 0x45, 0x00] ++ [0x0A] ++ [0x0A]) ++
          ([0x1B, 0x61, 0x01] ++ [0x1B, 0x21, 0x30] ++ [0x1B, 0x45, 0x01] ++
           strBytes text ++ [0x0A] ++ [0x0A]), ?_⟩
        simp [encode, h, ESC_POS.CENTER, ESC_POS.LARGE_TEXT, ESC_POS.NORMAL_TEXT,
          ESC_POS.BOLD_ON, ESC_POS.BOLD_OFF, ESC_POS.FEED, ESC_POS.CUT,
          List.append_assoc]
      · refine ⟨([0x1B, 0x61, 0x01] ++ [0x1B, 0x21, 0x30] ++ [0x1B, 0x45, 0x01] ++
          strBytes "Hard Plot Center" ++ [0x1B, 0x45, 0x00] ++ [0x0A] ++ [0x0A]) ++
          ([0x1B, 0x61, 0x01] ++ [0x1B, 0x21, 0x30] ++ [0x1B, 0x45, 0x01] ++
           strBytes text ++ [0x0A] ++ [0x0A]), ?_⟩
        simp [encode, h, ESC_POS.CENTER, ESC_POS.LARGE_TEXT, ESC_POS.NORMAL_TEXT,
          ESC_POS.BOLD_ON, ESC_POS.BOLD_OFF, ESC_POS.FEED, ESC_POS.CUT,
          List.append_assoc]

/-- Claim C10: a network connect request with a missing `ipAddress` or
`port` is rejected atomically: it returns the required-fields failure and
the whole state — including any existing active connection — is left exactly
as it was. -/
theorem connect_missing_field_rejected (st : ServerState) (ip : Option String)
    (port : Option Nat) (outcome : ConnectOutcome) (h : ip = none ∨ port = none) :
    connect st ip port outcome =
      (st, ⟨false, some "IP address and port are required", none⟩) := by
  rcases h with h | h <;> subst h
  · simp [connect, truthyOptStr]
  · cases ip with
    | none => simp [connect, truthyOptStr]
    | some s => simp [connect, truthyOptStr, truthyOptNat]

/-- Witness for C10: a request with no ipAddress leaves an open connection
untouched. -/
theorem connect_missing_field_rejected_witness :
    connect ⟨some 0, [SockStatus.openConn], []⟩ none (some 9100) .ok =
      (⟨some 0, [SockStatus.openConn], []⟩,
       ⟨false, some "IP address and port are required", none⟩) :=
  connect_missing_field_rejected ⟨some 0, [SockStatus.openConn], []⟩ none
    (some 9100) .ok (Or.inl rfl)

end ThermalPrinter
